import Mathlib

/-!
Shallow embedding of the matrix-blog core (src/BlogService.ts) together with
the fragments of the Matrix client contract (src/matrix/MatrixClient.ts,
src/matrix/types.ts) that the BlogService observes.  Network calls are
modelled by oracle responses of type `MatrixResult`; issued protocol calls
are recorded in traces (`Call` lists).  Strings follow JavaScript runtime
semantics: a possibly-absent string field is `Option String`, and JS
truthiness of a string (empty string is falsy) is modelled explicitly.
-/

namespace MatrixBlog

/-- Event-type constants of BlogService.ts. -/
def TYPE_KEY : String := "org.matrix.msc1772.type"

/-- Value marking a room as a space. -/
def SPACE_VALUE : String := "org.matrix.msc1772.space"

/-- Event type of the child linkage record written on the blog room. -/
def CHILD_EVENT : String := "org.matrix.msc1772.space.child"

/-- Event type of the parent linkage record written on the post room. -/
def PARENT_EVENT : String := "org.matrix.msc1772.space.parent"

/-- Event type of the content-pointer record written on the post room. -/
def POST_CONTENT_EVENT : String := "co.hirsz.blog.post_content"

/-- Details carried by a MatrixError (status is kept separately). -/
structure MatrixErrorDetails where
  errcode : String
  error : String
deriving Repr, DecidableEq

/-- Result of a single Matrix client call: either a value or a MatrixError
with its HTTP status and details. -/
abbrev MatrixResult (α : Type) := Except (Nat × MatrixErrorDetails) α

/-- Errors surfaced by BlogService operations: a propagated protocol error
(MatrixError), a domain-level BlogServiceError with its message, or a
JavaScript TypeError raised by an undefined property access. -/
inductive SvcError where
  | matrixError (status : Nat) (details : MatrixErrorDetails)
  | blogServiceError (msg : String)
  | typeError
deriving Repr, DecidableEq

/-- Lifts a failed Matrix call into the service error type. -/
def ofMatrix {α : Type} : MatrixResult α → Except SvcError α
  | .error (s, d) => .error (.matrixError s d)
  | .ok a => .ok a

/-- Duck-typed view of a state-event content object: each field the
BlogService ever reads, absent fields being JS undefined. -/
structure EventContent where
  name : Option String := none
  topic : Option String := none
  aliasVal : Option String := none
  msc1772Type : Option String := none
  event_id : Option String := none
  membership : Option String := none
deriving Repr, DecidableEq

/-- A persisted state event as returned by the room-state fetch (the fields
BlogService reads from matrix/types.ts PersistedStateEvent). -/
structure PersistedStateEvent where
  type : String
  state_key : String
  content : EventContent
  event_id : String
  origin_server_ts : Nat
deriving Repr, DecidableEq

/-- The aggregation object found under the m.replace key of the unsigned
m.relations metadata of a message. -/
structure ReplaceRelation where
  origin_server_ts : Option Nat
deriving Repr, DecidableEq

/-- The m.relations object of the unsigned metadata of a message; the mReplace
field models its m.replace entry. -/
structure Relations where
  mReplace : Option ReplaceRelation
deriving Repr, DecidableEq

/-- Unsigned metadata of a message event; mRelations models the
m.relations entry. -/
structure UnsignedData where
  mRelations : Option Relations
deriving Repr, DecidableEq

/-- Content of the text message event holding post content. -/
structure MessageContent where
  body : String
  formatted_body : Option String
deriving Repr, DecidableEq

/-- A timeline message event as returned by getEvent. -/
structure MessageEvent where
  content : MessageContent
  origin_server_ts : Nat
  unsigned : Option UnsignedData
deriving Repr, DecidableEq

/-- One room of a space summary response (matrix/types.ts
PublicRoomsChunk, restricted to the fields BlogService reads). -/
structure PublicRoomsChunk where
  room_id : String
  name : Option String
  topic : Option String
  canonical_alias : Option String
deriving Repr, DecidableEq

/-- Space summary response: the space room itself plus its children. -/
structure SpaceSummaryResponse where
  rooms : List PublicRoomsChunk
deriving Repr, DecidableEq

/-- The Blog view (src/types.ts). -/
structure Blog where
  id : String
  title : Option String
  description : Option String
deriving Repr, DecidableEq

/-- Post metadata (src/types.ts). -/
structure PostMetadata where
  id : String
  title : Option String
  summary : Option String
  slug : Option String
deriving Repr, DecidableEq

/-- Post content (src/types.ts PostContent); html is optional because the
source reads formatted_body with a non-null assertion whose runtime value
may still be absent. -/
structure PostContent where
  text : String
  html : Option String
  created_ms : Nat
  edited_ms : Option Nat
  published_ms : Option Nat
deriving Repr, DecidableEq

/-- A full Post: metadata merged with content. -/
structure Post where
  id : String
  title : Option String
  summary : Option String
  slug : Option String
  text : String
  html : Option String
  created_ms : Nat
  edited_ms : Option Nat
  published_ms : Option Nat
deriving Repr, DecidableEq

/-- Blog together with the post metadata of its children. -/
structure BlogWithPostMetadata where
  id : String
  title : Option String
  description : Option String
  posts : List PostMetadata
deriving Repr, DecidableEq

/-- New post input (src/types.ts NewPost). -/
structure NewPost where
  title : String
  summary : Option String
  slug : Option String
  text : String
  html : String
deriving Repr, DecidableEq

/-- JS truthiness of an optional string: undefined and the empty string
are falsy. -/
def truthy : Option String → Bool
  | none => false
  | some s => !(s == "")

/-- The JS expression a and-and f(a) for an optional string a and a
string-valued f: undefined stays undefined, the empty string is returned
unchanged (falsy short-circuit), otherwise f is applied. -/
def jsAndString (a : Option String) (f : String → String) : Option String :=
  match a with
  | none => none
  | some s => if s == "" then some "" else some (f s)

/-- The JS expression a and-and f(a) where f itself returns an optional
string. -/
def jsAndThen (a : Option String) (f : String → Option String) : Option String :=
  match a with
  | none => none
  | some s => if s == "" then some "" else f s

/-- BlogService.createLocalRoomAlias: prepends the configured room
prefix (default "blog.") to the name. -/
def createLocalRoomAlias (pfx nm : String) : String := pfx ++ nm

/-- BlogService.createRoomAlias: builds the fully qualified alias from the
slug and the server name of the client. -/
def createRoomAlias (pfx serverName slug : String) : String :=
  "#" ++ createLocalRoomAlias pfx slug ++ ":" ++ serverName

/-- BlogService.getSlugFromRoomAlias: matches the alias against the
anchored pattern hash, escaped prefix, then one or more non-colon
characters (the escapeRegexp helper escapes every JS regular-expression
metacharacter, so the prefix is matched literally).  The captured group is
the maximal run of non-colon characters after the prefix; no match yields
undefined. -/
def getSlugFromRoomAlias (pfx aliasStr : String) : Option String :=
  if ('#' :: pfx.toList) <+: aliasStr.toList then
    let slug := (aliasStr.toList.drop ('#' :: pfx.toList).length).takeWhile
      (fun c => c != ':')
    if slug.isEmpty then none else some (String.mk slug)
  else none

/-- Finds the first state event of the given type, as Array.prototype.find
does in the source. -/
def findEvent (evs : List PersistedStateEvent) (t : String) : Option PersistedStateEvent :=
  evs.find? (fun e => e.type == t)

/-- BlogService.getStateEvents: fetch the room state, then require a room
creation event and the space-type marker on it, raising the corresponding
BlogServiceError otherwise. -/
def validateStateEvents (evs : List PersistedStateEvent) :
    Except SvcError (List PersistedStateEvent) :=
  match findEvent evs "m.room.create" with
  | none => .error (.blogServiceError "Could not find room creation event")
  | some createEvent =>
    if createEvent.content.msc1772Type == some SPACE_VALUE then .ok evs
    else .error (.blogServiceError "This room is not a space")

/-- BlogService.getBlog over the state fetched for the room: validate the
room, then read the name and topic records if present. -/
def getBlog (stateRes : MatrixResult (List PersistedStateEvent)) (id : String) :
    Except SvcError Blog :=
  match ofMatrix stateRes with
  | .error e => .error e
  | .ok evs =>
    match validateStateEvents evs with
    | .error e => .error e
    | .ok evs =>
      .ok { id := id,
            title := (findEvent evs "m.room.name").bind (fun e => e.content.name),
            description := (findEvent evs "m.room.topic").bind (fun e => e.content.topic) }

/-- Maps one room of a space summary to post metadata: name to title,
topic to summary, canonical alias to slug by prefix strip, with the JS
falsy short-circuit on the alias. -/
def roomToPostMetadata (pfx : String) (room : PublicRoomsChunk) : PostMetadata :=
  { id := room.room_id,
    title := room.name,
    summary := room.topic,
    slug := jsAndThen room.canonical_alias (getSlugFromRoomAlias pfx) }

/-- BlogService.getBlogWithPosts over the fetched space summary: the room
matching the requested id is the blog (an absent match is the missing-blog
failure), every other room becomes post metadata in summary order. -/
def getBlogWithPosts (pfx : String) (summaryRes : MatrixResult SpaceSummaryResponse)
    (id : String) : Except SvcError BlogWithPostMetadata :=
  match ofMatrix summaryRes with
  | .error e => .error e
  | .ok summary =>
    match summary.rooms.find? (fun room => room.room_id == id) with
    | none => .error (.blogServiceError "Could not find blog room")
    | some blogRoom =>
      .ok { id := id,
            title := blogRoom.name,
            description := blogRoom.topic,
            posts := (summary.rooms.filter (fun room => room.room_id != id)).map
              (roomToPostMetadata pfx) }

/-- BlogService.getPostTitle: reads the name record; a failed read
propagates unchanged (there is no catch in the source). -/
def getPostTitle (nameRes : MatrixResult EventContent) : Except SvcError (Option String) :=
  match ofMatrix nameRes with
  | .error e => .error e
  | .ok c => .ok c.name

/-- BlogService.getPostSummary: reads the topic record; a 404 MatrixError
is downgraded to undefined, every other failure propagates. -/
def getPostSummary (topicRes : MatrixResult EventContent) : Except SvcError (Option String) :=
  match topicRes with
  | .error (s, d) => if s == 404 then .ok none else .error (.matrixError s d)
  | .ok c => .ok c.topic

/-- BlogService.getPostSlug: reads the canonical-alias record; a 404
MatrixError is downgraded to undefined, every other failure propagates; a
falsy alias yields undefined, otherwise the alias is parsed into a slug. -/
def getPostSlug (pfx : String) (aliasRes : MatrixResult EventContent) :
    Except SvcError (Option String) :=
  match aliasRes with
  | .error (s, d) => if s == 404 then .ok none else .error (.matrixError s d)
  | .ok c =>
    match c.aliasVal with
    | none => .ok none
    | some a => if a == "" then .ok none else .ok (getSlugFromRoomAlias pfx a)

/-- The edited-timestamp derivation of BlogService.getPostContent, with
JavaScript optional-chaining semantics: absent unsigned metadata or an
absent m.relations entry short-circuit to undefined, but a present
m.relations object lacking the m.replace entry makes the unguarded
property access on undefined throw a TypeError. -/
def editedMsOf (unsigned : Option UnsignedData) : Except SvcError (Option Nat) :=
  match unsigned with
  | none => .ok none
  | some u =>
    match u.mRelations with
    | none => .ok none
    | some rels =>
      match rels.mReplace with
      | none => .error .typeError
      | some rep => .ok rep.origin_server_ts

/-- BlogService.getPostContent over the fetched room state and the message
fetch oracle: requires the content-pointer record, derives the published
timestamp from the canonical-alias record, fetches the pointed-at message
and assembles the content, the edited timestamp coming last. -/
def getPostContent (stateRes : MatrixResult (List PersistedStateEvent))
    (messageRes : Option String → MatrixResult MessageEvent) :
    Except SvcError PostContent :=
  match ofMatrix stateRes with
  | .error e => .error e
  | .ok evs =>
    match findEvent evs POST_CONTENT_EVENT with
    | none => .error (.blogServiceError "Could not find post content event")
    | some pc =>
      let publishedMs : Option Nat :=
        match findEvent evs "m.room.canonical_alias" with
        | some ae => if truthy ae.content.aliasVal then some ae.origin_server_ts else none
        | none => none
      match ofMatrix (messageRes pc.content.event_id) with
      | .error e => .error e
      | .ok message =>
        match editedMsOf message.unsigned with
        | .error e => .error e
        | .ok ed =>
          .ok { text := message.content.body,
                html := message.content.formatted_body,
                created_ms := message.origin_server_ts,
                published_ms := publishedMs,
                edited_ms := ed }

/-- The four oracle responses consumed by the concurrent reads of
BlogService.getPost. -/
structure PostWorld where
  nameRes : MatrixResult EventContent
  topicRes : MatrixResult EventContent
  aliasRes : MatrixResult EventContent
  stateRes : MatrixResult (List PersistedStateEvent)
  messageRes : Option String → MatrixResult MessageEvent

/-- BlogService.getPost joins the four concurrent reads with Promise.all:
if all fulfil, the merged Post is returned; if any rejects, the join
rejects with the error of that component, whichever rejection settles first
being timing-dependent, hence the relational (nondeterministic) model. -/
inductive GetPostSpec (pfx : String) (w : PostWorld) (postId : String) :
    Except SvcError Post → Prop where
  | ok {t s sl c} :
      getPostTitle w.nameRes = .ok t →
      getPostSummary w.topicRes = .ok s →
      getPostSlug pfx w.aliasRes = .ok sl →
      getPostContent w.stateRes w.messageRes = .ok c →
      GetPostSpec pfx w postId (.ok
        { id := postId, title := t, summary := s, slug := sl,
          text := c.text, html := c.html, created_ms := c.created_ms,
          edited_ms := c.edited_ms, published_ms := c.published_ms })
  | titleErr {e} : getPostTitle w.nameRes = .error e →
      GetPostSpec pfx w postId (.error e)
  | summaryErr {e} : getPostSummary w.topicRes = .error e →
      GetPostSpec pfx w postId (.error e)
  | slugErr {e} : getPostSlug pfx w.aliasRes = .error e →
      GetPostSpec pfx w postId (.error e)
  | contentErr {e} : getPostContent w.stateRes w.messageRes = .error e →
      GetPostSpec pfx w postId (.error e)

/-- The createRoom request assembled by addPost; initial_state entries are
modelled as pairs of event type and history-visibility value. -/
structure CreateRoomReq where
  name : Option String
  topic : Option String
  room_alias_name : Option String
  preset : String
  initial_state : List (String × String)
deriving Repr, DecidableEq

/-- The m.new_content payload carried by an edit message. -/
structure NewContentPayload where
  msgtype : String
  format : String
  body : String
  formatted_body : String
deriving Repr, DecidableEq

/-- The m.relates_to payload carried by an edit message; the event id is
optional because the source forwards the field of the pointer record without
checking its presence. -/
structure RelatesTo where
  rel_type : String
  event_id : Option String
deriving Repr, DecidableEq

/-- Payload of a sendMessageEvent call. -/
structure MessagePayload where
  msgtype : String
  format : String
  body : String
  formatted_body : String
  newContent : Option NewContentPayload
  relatesTo : Option RelatesTo
deriving Repr, DecidableEq

/-- Payload of a sendStateEvent call, one constructor per record kind the
BlogService writes. -/
inductive StatePayload where
  | childLink (via : List String)
  | parentLink (via : List String) (canonical : Bool)
  | contentPointer (event_id : String)
  | nameRecord (name : String)
  | topicRecord (topic : String)
  | aliasRecord (aliasStr : String)
deriving Repr, DecidableEq

/-- One protocol call issued against the Matrix client, with the arguments
the BlogService passes. -/
inductive Call where
  | createRoom (req : CreateRoomReq)
  | sendMessageEvent (roomId evType : String) (payload : MessagePayload)
  | sendStateEvent (roomId evType stateKey : String) (payload : StatePayload)
  | getStateEvents (roomId : String)
  | getStateEvent (roomId evType : String)
  | getSpaceSummary (roomId : String)
  | getEventCall (roomId : String) (eventId : Option String)
  | getCurrentUser
  | redactEvent (roomId eventId reason : String)
  | addRoomAlias (aliasStr roomId : String)
  | removeRoomAlias (aliasStr : String)
  | kickUser (roomId userId reason : String)
  | leaveRoom (roomId : String)
deriving Repr, DecidableEq

/-- Read-only protocol calls (no write, redaction, alias change,
membership change or departure). -/
def Call.isRead : Call → Bool
  | .getStateEvents _ => true
  | .getStateEvent _ _ => true
  | .getSpaceSummary _ => true
  | .getEventCall _ _ => true
  | .getCurrentUser => true
  | _ => false

/-- Oracle responses consumed by one addPost run. -/
structure AddPostEnv where
  serverName : String
  createRoomRes : MatrixResult String
  sendMessageRes : MatrixResult String
  childRes : MatrixResult String
  parentRes : MatrixResult String
  pointerRes : MatrixResult String

/-- The createRoom request addPost assembles from its input: name and
topic echo the input, the alias name goes through the JS falsy
short-circuit, history is forced world readable. -/
def addPostCreateReq (pfx : String) (post : NewPost) : CreateRoomReq :=
  { name := some post.title,
    topic := post.summary,
    room_alias_name := jsAndString post.slug (createLocalRoomAlias pfx),
    preset := "public_chat",
    initial_state := [("m.room.history_visibility", "world_readable")] }

/-- The initial text message addPost sends. -/
def newPostMessagePayload (post : NewPost) : MessagePayload :=
  { msgtype := "m.text",
    format := "org.matrix.custom.html",
    body := post.text,
    formatted_body := post.html,
    newContent := none,
    relatesTo := none }

/-- BlogService.addPost: the room creation is awaited first; the message
send, child-link write and parent-link write are issued concurrently and
joined; the content-pointer write follows the join.  The trace groups the
issued calls into these sequential phases.  When several concurrent calls
reject, the winner of the join is timing dependent in the source; the model
surfaces the first rejection in promise-array order (no claim depends on
that choice). -/
def addPost (pfx : String) (env : AddPostEnv) (blogId : String) (post : NewPost) :
    Except SvcError PostMetadata × List (List Call) :=
  let createCall := Call.createRoom (addPostCreateReq pfx post)
  match ofMatrix env.createRoomRes with
  | .error e => (.error e, [[createCall]])
  | .ok postId =>
    let msgCall := Call.sendMessageEvent postId "m.room.message" (newPostMessagePayload post)
    let childCall := Call.sendStateEvent blogId CHILD_EVENT postId
      (.childLink [env.serverName])
    let parentCall := Call.sendStateEvent postId PARENT_EVENT blogId
      (.parentLink [env.serverName] true)
    let batch := [msgCall, childCall, parentCall]
    match ofMatrix env.sendMessageRes with
    | .error e => (.error e, [[createCall], batch])
    | .ok messageEventId =>
      match ofMatrix env.childRes with
      | .error e => (.error e, [[createCall], batch])
      | .ok _ =>
        match ofMatrix env.parentRes with
        | .error e => (.error e, [[createCall], batch])
        | .ok _ =>
          let pointerCall := Call.sendStateEvent postId POST_CONTENT_EVENT ""
            (.contentPointer messageEventId)
          match ofMatrix env.pointerRes with
          | .error e => (.error e, [[createCall], batch, [pointerCall]])
          | .ok _ =>
            (.ok { id := postId, title := some post.title,
                   summary := post.summary, slug := post.slug },
             [[createCall], batch, [pointerCall]])

/-- Forgets the value of a Matrix call, keeping only success or the lifted
error; used to model Promise.all joins over heterogeneous promises. -/
def toUnitRes {α : Type} : MatrixResult α → Except SvcError Unit
  | .error (s, d) => .error (.matrixError s d)
  | .ok _ => .ok ()

/-- First rejection of a list of settled promises, in array order (the
stand-in of the model for the timing-dependent winner of a Promise.all). -/
def firstErr : List (Except SvcError Unit) → Except SvcError Unit
  | [] => .ok ()
  | .error e :: _ => .error e
  | .ok _ :: rest => firstErr rest

/-- Oracle responses consumed by one deletePost run. -/
structure DeletePostWorld where
  postStateRes : MatrixResult (List PersistedStateEvent)
  currentUserRes : MatrixResult String
  blogStateRes : MatrixResult (List PersistedStateEvent)
  redactParentRes : MatrixResult String
  redactChildRes : MatrixResult String
  removeAliasRes : MatrixResult Unit
  kickRes : String → MatrixResult Unit
  leaveRes : MatrixResult Unit

/-- BlogService.deletePost: fetch the post state, require the parent-link
record, fetch the acting user, then in parallel redact the parent link,
look up and redact the matching child link on the blog (skipped silently
when absent), remove a present canonical alias, and kick every other
member; after the join settles successfully, leave the room.  The trace is
the flat list of issued calls in issue order (the child redaction is
created only once the blog-state read has fulfilled, the departure only
once the join has). -/
def deletePost (w : DeletePostWorld) (postId reason : String) :
    Except SvcError Unit × List Call :=
  let readCall := Call.getStateEvents postId
  match ofMatrix w.postStateRes with
  | .error e => (.error e, [readCall])
  | .ok stateEvents =>
    match findEvent stateEvents PARENT_EVENT with
    | none => (.error (.blogServiceError "No parent linkage"), [readCall])
    | some parentEvent =>
      match ofMatrix w.currentUserRes with
      | .error e => (.error e, [readCall, Call.getCurrentUser])
      | .ok currentUserId =>
        let blogId := parentEvent.state_key
        let redactParentCall := Call.redactEvent postId parentEvent.event_id reason
        let blogReadCall := Call.getStateEvents blogId
        let aliasVal : Option String :=
          (findEvent stateEvents "m.room.canonical_alias").bind
            (fun e => e.content.aliasVal)
        let aliasCalls : List Call :=
          match aliasVal with
          | some a => [Call.removeRoomAlias a]
          | none => []
        let aliasResults : List (Except SvcError Unit) :=
          match aliasVal with
          | some _ => [toUnitRes w.removeAliasRes]
          | none => []
        let memberships := stateEvents.filter
          (fun e => e.type == "m.room.member" && e.state_key != currentUserId)
        let kickCalls := memberships.map
          (fun m => Call.kickUser postId m.state_key reason)
        let kickResults := memberships.map (fun m => toUnitRes (w.kickRes m.state_key))
        let childEvent : Option PersistedStateEvent :=
          match w.blogStateRes with
          | .ok blogEvents =>
            blogEvents.find? (fun e => e.type == CHILD_EVENT && e.state_key == postId)
          | .error _ => none
        let childCalls : List Call :=
          match childEvent with
          | some ce => [Call.redactEvent blogId ce.event_id reason]
          | none => []
        let childBranchRes : Except SvcError Unit :=
          match ofMatrix w.blogStateRes with
          | .error e => .error e
          | .ok blogEvents =>
            match blogEvents.find?
              (fun e => e.type == CHILD_EVENT && e.state_key == postId) with
            | some _ => toUnitRes w.redactChildRes
            | none => .ok ()
        let issued := [readCall, Call.getCurrentUser, redactParentCall, blogReadCall]
          ++ aliasCalls ++ kickCalls ++ childCalls
        let joined := firstErr
          ([toUnitRes w.redactParentRes, childBranchRes] ++ aliasResults ++ kickResults)
        match joined with
        | .error e => (.error e, issued)
        | .ok _ =>
          (toUnitRes w.leaveRes, issued ++ [Call.leaveRoom postId])

/-- Oracle responses consumed by one setPostSlug run. -/
structure SlugWorld where
  aliasReadRes : MatrixResult EventContent
  addAliasRes : MatrixResult Unit
  sendAliasStateRes : MatrixResult String
  removeAliasRes : MatrixResult Unit

/-- BlogService.setPostSlug: compute the desired alias (the empty slug
means removal, via the JS falsy short-circuit), read the current alias
swallowing any read failure, stop if unchanged; otherwise bind the new
alias and point the canonical-alias record at it, then unbind a differing
old alias afterwards. -/
def setPostSlug (pfx serverName : String) (w : SlugWorld) (postId slug : String) :
    Except SvcError Unit × List Call :=
  let newAlias := if slug == "" then "" else createRoomAlias pfx serverName slug
  let readCall := Call.getStateEvent postId "m.room.canonical_alias"
  let oldAlias : Option String :=
    match w.aliasReadRes with
    | .ok c => c.aliasVal
    | .error _ => none
  if oldAlias == some newAlias then (.ok (), [readCall])
  else
    let bindPart : Except SvcError Unit × List Call :=
      if newAlias == "" then (.ok (), [])
      else
        let addCall := Call.addRoomAlias newAlias postId
        let stateCall := Call.sendStateEvent postId "m.room.canonical_alias" ""
          (.aliasRecord newAlias)
        match toUnitRes w.addAliasRes with
        | .error e => (.error e, [addCall])
        | .ok _ =>
          match toUnitRes w.sendAliasStateRes with
          | .error e => (.error e, [addCall, stateCall])
          | .ok _ => (.ok (), [addCall, stateCall])
    match bindPart with
    | (.error e, tr) => (.error e, readCall :: tr)
    | (.ok _, tr) =>
      let removePart : Except SvcError Unit × List Call :=
        match oldAlias with
        | some a =>
          if a == "" then (.ok (), [])
          else
            match toUnitRes w.removeAliasRes with
            | .error e => (.error e, [Call.removeRoomAlias a])
            | .ok _ => (.ok (), [Call.removeRoomAlias a])
        | none => (.ok (), [])
      (removePart.1, readCall :: (tr ++ removePart.2))

/-- The edit message setPostContent sends: prefixed fallback bodies, the
clean text and HTML inside m.new_content, and an m.replace relation
pointing at the stored original event id. -/
def editedMessagePayload (text html : String) (origId : Option String) : MessagePayload :=
  { msgtype := "m.text",
    format := "org.matrix.custom.html",
    body := "(edited) " ++ text,
    formatted_body := "<p>(edited)</p> " ++ html,
    newContent := some { msgtype := "m.text", format := "org.matrix.custom.html",
                         body := text, formatted_body := html },
    relatesTo := some { rel_type := "m.replace", event_id := origId } }

/-- BlogService.setPostContent: read the content-pointer record, then send
one replacement message; the pointer record itself is never written. -/
def setPostContent (pointerRes : MatrixResult EventContent)
    (sendRes : MatrixResult String) (postId text html : String) :
    Except SvcError String × List Call :=
  let readCall := Call.getStateEvent postId POST_CONTENT_EVENT
  match ofMatrix pointerRes with
  | .error e => (.error e, [readCall])
  | .ok pc =>
    let sendCall := Call.sendMessageEvent postId "m.room.message"
      (editedMessagePayload text html pc.event_id)
    match ofMatrix sendRes with
    | .error e => (.error e, [readCall, sendCall])
    | .ok eid => (.ok eid, [readCall, sendCall])

/-- Modelled from the spec: the observable state of the remote service as far
as the claims need it, namely the per-room state records (spec section 6:
latest-write-wins records keyed by type and sub-key) of the post room and
the directory bindings of aliases to that room (spec glossary: an alias is
bound to a room via a separate directory service call).  Redaction and
membership effects live outside this projection and are not exercised by
the theorems that use it. -/
structure ServerState where
  roomState : List PersistedStateEvent
  dirAliases : List String
deriving Repr, DecidableEq

/-- Modelled from the spec: the content written by a state payload. -/
def payloadContent : StatePayload → EventContent
  | .childLink _ => {}
  | .parentLink _ _ => {}
  | .contentPointer eid => { event_id := some eid }
  | .nameRecord n => { name := some n }
  | .topicRecord t => { topic := some t }
  | .aliasRecord a => { aliasVal := some a }

/-- Modelled from the spec: how one protocol call changes the projected
server state of the post room.  A state write upserts the record at its
type and sub-key (protocol-assigned metadata is irrelevant to the claims
using this model and is left at placeholder values); alias binds and
unbinds edit the directory; message sends, reads and the remaining calls
leave this projection unchanged. -/
def applyCall (roomId : String) (st : ServerState) : Call → ServerState
  | .sendStateEvent r t k p =>
    if r == roomId then
      { st with roomState :=
          { type := t, state_key := k, content := payloadContent p,
            event_id := "", origin_server_ts := 0 } ::
          st.roomState.filter (fun e => !(e.type == t && e.state_key == k)) }
    else st
  | .addRoomAlias a r => if r == roomId then { st with dirAliases := a :: st.dirAliases } else st
  | .removeRoomAlias a => { st with dirAliases := st.dirAliases.filter (fun x => x != a) }
  | _ => st

/-- Applies a flat trace of calls to the projected server state. -/
def applyTrace (roomId : String) (st : ServerState) (tr : List Call) : ServerState :=
  tr.foldl (applyCall roomId) st

/-- Reads the current content of the state record of the given type, as
the single-record fetch of the protocol does: a missing record is a 404
MatrixError. -/
def readStateContent (st : ServerState) (t : String) : MatrixResult EventContent :=
  match findEvent st.roomState t with
  | some e => .ok e.content
  | none => .error (404, { errcode := "M_NOT_FOUND", error := "Event not found." })

/-! Helper lemmas about strings and lists used by the alias theorems. -/

theorem string_toList_append (s t : String) : (s ++ t).toList = s.toList ++ t.toList := rfl

theorem string_mk_toList (s : String) : String.mk s.toList = s := rfl

theorem string_toList_eq_nil_iff (s : String) : s.toList = [] ↔ s = "" := by
  cases s with
  | mk d =>
    constructor
    · intro h
      exact congrArg String.mk h
    · intro h
      rw [h]
      rfl

theorem takeWhile_append_all {p : Char → Bool} {xs : List Char}
    (h : ∀ c ∈ xs, p c) (ys : List Char) :
    (xs ++ ys).takeWhile p = xs ++ ys.takeWhile p := by
  induction xs with
  | nil => simp
  | cons x xs ih =>
    have hx : p x := h x (List.mem_cons_self x xs)
    simp only [List.cons_append, List.takeWhile_cons, hx, ih
      (fun c hc => h c (List.mem_cons_of_mem x hc)), if_true]

theorem getSlug_of_createRoomAlias (pfx server nm : String) (hne : nm ≠ "")
    (hcol : ∀ c ∈ nm.toList, c ≠ ':') :
    getSlugFromRoomAlias pfx (createRoomAlias pfx server nm) = some nm := by
  have hal : (createRoomAlias pfx server nm).toList
      = ('#' :: pfx.toList) ++ (nm.toList ++ ':' :: server.toList) := by
    show "#".toList ++ (pfx.toList ++ nm.toList) ++ ":".toList ++ server.toList = _
    simp
  have hnil : nm.toList ≠ [] := fun h => hne ((string_toList_eq_nil_iff nm).mp h)
  unfold getSlugFromRoomAlias
  rw [hal, if_pos (List.prefix_append _ _)]
  have hdrop : ((('#' :: pfx.toList) ++ (nm.toList ++ ':' :: server.toList)).drop
      ('#' :: pfx.toList).length) = nm.toList ++ ':' :: server.toList := by
    simp
  rw [hdrop]
  have htake : (nm.toList ++ ':' :: server.toList).takeWhile (fun c => c != ':')
      = nm.toList := by
    rw [takeWhile_append_all (fun c hc => by simpa using hcol c hc)]
    simp [List.takeWhile_cons]
  rw [htake]
  have hd : nm.data ≠ [] := hnil
  simp [hd, string_mk_toList]

theorem createRoomAlias_toList (pfx server nm : String) :
    (createRoomAlias pfx server nm).toList
      = ('#' :: pfx.toList) ++ (nm.toList ++ ':' :: server.toList) := by
  show "#".toList ++ (pfx.toList ++ nm.toList) ++ ":".toList ++ server.toList = _
  simp

theorem createRoomAlias_ne_empty (pfx server nm : String) :
    createRoomAlias pfx server nm ≠ "" := by
  intro h
  have h2 : (createRoomAlias pfx server nm).toList = [] := by
    rw [h]
    rfl
  rw [createRoomAlias_toList] at h2
  simp at h2

theorem getSlug_of_no_match (pfx a : String)
    (h : ¬ (('#' :: pfx.toList) <+: a.toList)) :
    getSlugFromRoomAlias pfx a = none := by
  unfold getSlugFromRoomAlias
  rw [if_neg h]

/-- C3: for every prefix P and server, and every valid name N (non-empty
and colon-free), getSlugFromRoomAlias recovers N exactly from
createRoomAlias N, and every alias that does not start with the hash
character followed by P yields no slug. -/
theorem createRoomAlias_getSlug_round_trip :
    (∀ pfx server nm : String, nm ≠ "" → (∀ c ∈ nm.toList, c ≠ ':') →
      getSlugFromRoomAlias pfx (createRoomAlias pfx server nm) = some nm) ∧
    (∀ pfx a : String, ¬ (('#' :: pfx.toList) <+: a.toList) →
      getSlugFromRoomAlias pfx a = none) :=
  ⟨getSlug_of_createRoomAlias, getSlug_of_no_match⟩

/-- Witness for C3 at a concrete prefix, server and name, and a concrete
non-matching alias. -/
theorem createRoomAlias_getSlug_round_trip_witness :
    getSlugFromRoomAlias "blog." (createRoomAlias "blog." "example.org" "my-post")
        = some "my-post"
      ∧ getSlugFromRoomAlias "blog." "!notanalias:s" = none :=
  ⟨createRoomAlias_getSlug_round_trip.1 "blog." "example.org" "my-post"
      (by decide) (by decide),
   createRoomAlias_getSlug_round_trip.2 "blog." "!notanalias:s" (by decide)⟩

/-- C5: getBlog fails with the no-creation-event BlogServiceError when the
fetched state has no creation record, fails with the not-a-space
BlogServiceError when the space-type marker of the creation record differs from
the space value, and otherwise returns a Blog whose title and description
come from the name and topic records, undefined when absent. -/
theorem getBlog_validation (stateRes : MatrixResult (List PersistedStateEvent))
    (id : String) :
    ∀ evs, stateRes = .ok evs →
      ((findEvent evs "m.room.create" = none →
         getBlog stateRes id
           = .error (.blogServiceError "Could not find room creation event")) ∧
       (∀ ce, findEvent evs "m.room.create" = some ce →
         ce.content.msc1772Type ≠ some SPACE_VALUE →
         getBlog stateRes id = .error (.blogServiceError "This room is not a space")) ∧
       (∀ ce, findEvent evs "m.room.create" = some ce →
         ce.content.msc1772Type = some SPACE_VALUE →
         getBlog stateRes id = .ok
           { id := id,
             title := (findEvent evs "m.room.name").bind (fun e => e.content.name),
             description :=
               (findEvent evs "m.room.topic").bind (fun e => e.content.topic) })) := by
  intro evs h
  subst h
  refine ⟨?_, ?_, ?_⟩
  · intro hnone
    simp [getBlog, ofMatrix, validateStateEvents, hnone]
  · intro ce hce hne
    simp [getBlog, ofMatrix, validateStateEvents, hce, hne]
  · intro ce hce heq
    simp [getBlog, ofMatrix, validateStateEvents, hce, heq]

/-- Sample creation record without the space marker. -/
def c5CreateNonSpace : PersistedStateEvent :=
  { type := "m.room.create", state_key := "", content := {},
    event_id := "$c1", origin_server_ts := 1 }

/-- Sample creation record carrying the space marker. -/
def c5CreateSpace : PersistedStateEvent :=
  { type := "m.room.create", state_key := "",
    content := { msc1772Type := some SPACE_VALUE },
    event_id := "$c2", origin_server_ts := 1 }

/-- Sample name record. -/
def c5Name : PersistedStateEvent :=
  { type := "m.room.name", state_key := "", content := { name := some "My blog" },
    event_id := "$n", origin_server_ts := 2 }

/-- Sample topic record. -/
def c5Topic : PersistedStateEvent :=
  { type := "m.room.topic", state_key := "", content := { topic := some "About things" },
    event_id := "$t", origin_server_ts := 3 }

/-- Witness for C5 at concrete room states exercising all three cases. -/
theorem getBlog_validation_witness :
    getBlog (.ok []) "!a:s"
        = .error (.blogServiceError "Could not find room creation event")
      ∧ getBlog (.ok [c5CreateNonSpace]) "!a:s"
        = .error (.blogServiceError "This room is not a space")
      ∧ getBlog (.ok [c5CreateSpace, c5Name, c5Topic]) "!b:s"
        = .ok { id := "!b:s", title := some "My blog",
                description := some "About things" } := by
  refine ⟨(getBlog_validation (.ok []) "!a:s" [] rfl).1 rfl, ?_, ?_⟩
  · exact (getBlog_validation (.ok [c5CreateNonSpace]) "!a:s" [c5CreateNonSpace]
      rfl).2.1 c5CreateNonSpace (by decide) (by decide)
  · have := (getBlog_validation (.ok [c5CreateSpace, c5Name, c5Topic]) "!b:s"
      [c5CreateSpace, c5Name, c5Topic] rfl).2.2 c5CreateSpace (by decide) (by decide)
    simpa [findEvent, c5CreateSpace, c5Name, c5Topic] using this

/-- C4: getBlogWithPosts fails with the missing-blog BlogServiceError
exactly when no room of the fetched summary carries the requested id;
otherwise the matching room supplies the title and description of the blog and
every other room becomes one PostMetadata in summary order, with name
mapped to title, topic to summary, and the canonical alias mapped to a
slug by prefix strip, a prefix-mismatched alias yielding a JS-falsy slug
(undefined, or the empty string for the falsy alias) rather than an
error. -/
theorem getBlogWithPosts_spec (pfx : String)
    (summaryRes : MatrixResult SpaceSummaryResponse) (id : String) :
    (∀ sm, summaryRes = .ok sm →
      ((getBlogWithPosts pfx summaryRes id
          = .error (.blogServiceError "Could not find blog room")
        ↔ ∀ room ∈ sm.rooms, room.room_id ≠ id) ∧
       (∀ blogRoom, sm.rooms.find? (fun room => room.room_id == id) = some blogRoom →
         getBlogWithPosts pfx summaryRes id = .ok
           { id := id, title := blogRoom.name, description := blogRoom.topic,
             posts := (sm.rooms.filter (fun room => room.room_id != id)).map
               (roomToPostMetadata pfx) }))) ∧
    (∀ room : PublicRoomsChunk,
      (roomToPostMetadata pfx room).id = room.room_id ∧
      (roomToPostMetadata pfx room).title = room.name ∧
      (roomToPostMetadata pfx room).summary = room.topic) ∧
    (∀ room : PublicRoomsChunk, room.canonical_alias = none →
      (roomToPostMetadata pfx room).slug = none) ∧
    (∀ room : PublicRoomsChunk, ∀ a, room.canonical_alias = some a → a ≠ "" →
      (roomToPostMetadata pfx room).slug = getSlugFromRoomAlias pfx a) ∧
    (∀ room : PublicRoomsChunk, ∀ a, room.canonical_alias = some a →
      ¬ (('#' :: pfx.toList) <+: a.toList) →
      ((roomToPostMetadata pfx room).slug = none
        ∨ (roomToPostMetadata pfx room).slug = some "")) := by
  refine ⟨?_, ?_, ?_, ?_, ?_⟩
  · intro sm h
    subst h
    constructor
    · rcases hf : sm.rooms.find? (fun room => room.room_id == id) with _ | blogRoom
      · simp only [getBlogWithPosts, ofMatrix, hf]
        rw [List.find?_eq_none] at hf
        simpa using hf
      · simp only [getBlogWithPosts, ofMatrix, hf]
        have hbr : blogRoom.room_id = id := by
          have := List.find?_some hf
          simpa using this
        constructor
        · intro h
          exact absurd h (by simp)
        · intro hall
          exact absurd hbr (hall blogRoom (List.mem_of_find?_eq_some hf))
    · intro blogRoom hf
      simp [getBlogWithPosts, ofMatrix, hf]
  · intro room
    exact ⟨rfl, rfl, rfl⟩
  · intro room h
    simp [roomToPostMetadata, jsAndThen, h]
  · intro room a h hne
    simp [roomToPostMetadata, jsAndThen, h, hne]
  · intro room a h hnm
    by_cases hae : a = ""
    · right
      simp [roomToPostMetadata, jsAndThen, h, hae]
    · left
      simp [roomToPostMetadata, jsAndThen, h, hae, getSlug_of_no_match pfx a hnm]

/-- Sample summary rooms for the spec scenario: the blog room, a post with
a parsable alias and a post without one. -/
def c4BlogRoom : PublicRoomsChunk :=
  { room_id := "!b:s", name := some "Blog", topic := some "Topic",
    canonical_alias := none }

/-- Sample post room carrying the alias that strips to the slug hello. -/
def c4Post1 : PublicRoomsChunk :=
  { room_id := "!p1:s", name := some "Hello", topic := some "First",
    canonical_alias := some "#blog.hello:s" }

/-- Sample post room without an alias. -/
def c4Post2 : PublicRoomsChunk :=
  { room_id := "!p2:s", name := some "Second", topic := none,
    canonical_alias := none }

/-- Witness for C4 on the scenario summary of the spec and on a summary missing
the requested id. -/
theorem getBlogWithPosts_spec_witness :
    getBlogWithPosts "blog." (.ok { rooms := [c4BlogRoom, c4Post1, c4Post2] }) "!b:s"
        = .ok { id := "!b:s", title := some "Blog", description := some "Topic",
                posts := [
                  { id := "!p1:s", title := some "Hello", summary := some "First",
                    slug := some "hello" },
                  { id := "!p2:s", title := some "Second", summary := none,
                    slug := none }] }
      ∧ getBlogWithPosts "blog." (.ok { rooms := [c4Post1] }) "!b:s"
        = .error (.blogServiceError "Could not find blog room") := by
  constructor
  · have := ((getBlogWithPosts_spec "blog."
      (.ok { rooms := [c4BlogRoom, c4Post1, c4Post2] }) "!b:s").1
      { rooms := [c4BlogRoom, c4Post1, c4Post2] } rfl).2 c4BlogRoom (by decide)
    rw [this]
    simp [c4BlogRoom, c4Post1, c4Post2, roomToPostMetadata, jsAndThen]
    decide
  · exact (((getBlogWithPosts_spec "blog." (.ok { rooms := [c4Post1] }) "!b:s").1
      { rooms := [c4Post1] } rfl).1).mpr (by decide)

/-- C2 (amended): the title read of getPost has no catch, so a missing
name record surfaces as the raw 404 MatrixError, never as a domain-level
BlogServiceError; a 404 on the topic or canonical-alias reads is
downgraded to undefined while any non-404 failure there propagates
unchanged; and a missing content-pointer record is a hard
BlogServiceError failure of getPost. -/
theorem getPost_error_taxonomy (pfx : String) (w : PostWorld) (postId : String) :
    (∀ d, w.nameRes = .error (404, d) →
      getPostTitle w.nameRes = .error (.matrixError 404 d)
        ∧ GetPostSpec pfx w postId (.error (.matrixError 404 d))) ∧
    (∀ m, getPostTitle w.nameRes ≠ .error (.blogServiceError m)) ∧
    (∀ d, w.topicRes = .error (404, d) → getPostSummary w.topicRes = .ok none) ∧
    (∀ s d, s ≠ 404 → w.topicRes = .error (s, d) →
      getPostSummary w.topicRes = .error (.matrixError s d)) ∧
    (∀ d, w.aliasRes = .error (404, d) → getPostSlug pfx w.aliasRes = .ok none) ∧
    (∀ s d, s ≠ 404 → w.aliasRes = .error (s, d) →
      getPostSlug pfx w.aliasRes = .error (.matrixError s d)) ∧
    (∀ evs, w.stateRes = .ok evs → findEvent evs POST_CONTENT_EVENT = none →
      getPostContent w.stateRes w.messageRes
          = .error (.blogServiceError "Could not find post content event")
        ∧ GetPostSpec pfx w postId
            (.error (.blogServiceError "Could not find post content event"))) := by
  refine ⟨?_, ?_, ?_, ?_, ?_, ?_, ?_⟩
  · intro d h
    have ht : getPostTitle w.nameRes = .error (.matrixError 404 d) := by
      simp [getPostTitle, ofMatrix, h]
    exact ⟨ht, GetPostSpec.titleErr ht⟩
  · intro m h
    rcases hn : w.nameRes with ⟨s, d⟩ | c
    · rw [hn] at h
      simp [getPostTitle, ofMatrix] at h
    · rw [hn] at h
      simp [getPostTitle, ofMatrix] at h
  · intro d h
    simp [getPostSummary, h]
  · intro s d hs h
    simp [getPostSummary, h, hs]
  · intro d h
    simp [getPostSlug, h]
  · intro s d hs h
    simp [getPostSlug, h, hs]
  · intro evs h hnone
    have hc : getPostContent w.stateRes w.messageRes
        = .error (.blogServiceError "Could not find post content event") := by
      simp [getPostContent, ofMatrix, h, hnone]
    exact ⟨hc, GetPostSpec.contentErr hc⟩

/-- MatrixError details of a not-found response. -/
def notFoundDetails : MatrixErrorDetails :=
  { errcode := "M_NOT_FOUND", error := "Event not found." }

/-- MatrixError details of a rate-limit response. -/
def limitDetails : MatrixErrorDetails :=
  { errcode := "M_LIMIT_EXCEEDED", error := "Too many requests" }

/-- Content-pointer record naming the sample message. -/
def samplePointer : PersistedStateEvent :=
  { type := POST_CONTENT_EVENT, state_key := "",
    content := { event_id := some "$m1" },
    event_id := "$pc", origin_server_ts := 5 }

/-- Sample message with no replacement metadata. -/
def sampleMessage : MessageEvent :=
  { content := { body := "Hi", formatted_body := some "<p>Hi</p>" },
    origin_server_ts := 10, unsigned := none }

/-- A post world whose only failing read is the name record (404); all
other reads succeed. -/
def c2World : PostWorld :=
  { nameRes := .error (404, notFoundDetails),
    topicRes := .ok {},
    aliasRes := .ok {},
    stateRes := .ok [samplePointer],
    messageRes := fun _ => .ok sampleMessage }

/-- Counterexample to C2 as stated: with only the name record absent,
getPost rejects with the raw 404 MatrixError, and no BlogServiceError of
a title-record-missing kind can be produced. -/
theorem getPost_title_error_counterexample :
    getPostTitle c2World.nameRes = .error (.matrixError 404 notFoundDetails)
      ∧ GetPostSpec "blog." c2World "!p:s"
          (.error (.matrixError 404 notFoundDetails))
      ∧ ¬ GetPostSpec "blog." c2World "!p:s"
          (.error (.blogServiceError "title record missing")) := by
  refine ⟨by simp [getPostTitle, ofMatrix, c2World], ?_, ?_⟩
  · exact GetPostSpec.titleErr (by simp [getPostTitle, ofMatrix, c2World])
  · intro h
    cases h with
    | titleErr h => simp [getPostTitle, ofMatrix, c2World] at h
    | summaryErr h => simp [getPostSummary, c2World] at h
    | slugErr h => simp [getPostSlug, c2World] at h
    | contentErr h =>
      simp [getPostContent, ofMatrix, c2World, samplePointer, sampleMessage, findEvent,
        editedMsOf, POST_CONTENT_EVENT] at h

/-- A post world whose topic and alias reads fail with a non-404 error and
whose state carries no content-pointer record. -/
def c2WorldB : PostWorld :=
  { nameRes := .error (404, notFoundDetails),
    topicRes := .error (429, limitDetails),
    aliasRes := .error (429, limitDetails),
    stateRes := .ok [],
    messageRes := fun _ => .ok sampleMessage }

/-- A post world whose topic and alias reads fail with 404. -/
def c2WorldC : PostWorld :=
  { nameRes := .ok {},
    topicRes := .error (404, notFoundDetails),
    aliasRes := .error (404, notFoundDetails),
    stateRes := .ok [samplePointer],
    messageRes := fun _ => .ok sampleMessage }

/-- Witness for the amended C2 at concrete worlds covering every case. -/
theorem getPost_error_taxonomy_witness :
    (getPostTitle c2WorldB.nameRes = .error (.matrixError 404 notFoundDetails)
      ∧ GetPostSpec "blog." c2WorldB "!p:s"
          (.error (.matrixError 404 notFoundDetails)))
      ∧ getPostSummary c2WorldC.topicRes = .ok none
      ∧ getPostSlug "blog." c2WorldC.aliasRes = .ok none
      ∧ getPostSummary c2WorldB.topicRes = .error (.matrixError 429 limitDetails)
      ∧ getPostSlug "blog." c2WorldB.aliasRes = .error (.matrixError 429 limitDetails)
      ∧ (getPostContent c2WorldB.stateRes c2WorldB.messageRes
          = .error (.blogServiceError "Could not find post content event")
        ∧ GetPostSpec "blog." c2WorldB "!p:s"
            (.error (.blogServiceError "Could not find post content event"))) :=
  ⟨(getPost_error_taxonomy "blog." c2WorldB "!p:s").1 notFoundDetails rfl,
   (getPost_error_taxonomy "blog." c2WorldC "!p:s").2.2.1 notFoundDetails rfl,
   (getPost_error_taxonomy "blog." c2WorldC "!p:s").2.2.2.2.1 notFoundDetails rfl,
   (getPost_error_taxonomy "blog." c2WorldB "!p:s").2.2.2.1 429 limitDetails
     (by decide) rfl,
   (getPost_error_taxonomy "blog." c2WorldB "!p:s").2.2.2.2.2.1 429 limitDetails
     (by decide) rfl,
   (getPost_error_taxonomy "blog." c2WorldB "!p:s").2.2.2.2.2.2 [] rfl rfl⟩

/-- C10 (amended): the edited-timestamp derivation of getPostContent is
total when the unsigned metadata of the message is absent, when its
m.relations entry is absent, or when an m.replace entry is present, but a
present m.relations object lacking the m.replace entry makes the
derivation, and with it getPostContent, fail with a TypeError instead of
producing a value. -/
theorem editedMs_total_except_missing_replace
    (stateRes : MatrixResult (List PersistedStateEvent))
    (msgRes : Option String → MatrixResult MessageEvent) :
    (editedMsOf none = .ok none) ∧
    (∀ u : UnsignedData, u.mRelations = none → editedMsOf (some u) = .ok none) ∧
    (∀ u rels rep, u.mRelations = some rels → rels.mReplace = some rep →
      editedMsOf (some u) = .ok rep.origin_server_ts) ∧
    (∀ u rels, u.mRelations = some rels → rels.mReplace = none →
      editedMsOf (some u) = .error .typeError) ∧
    (∀ evs pc msg, stateRes = .ok evs →
      findEvent evs POST_CONTENT_EVENT = some pc →
      msgRes pc.content.event_id = .ok msg →
      ((∀ e, editedMsOf msg.unsigned = .ok e →
          ∃ c, getPostContent stateRes msgRes = .ok c ∧ c.edited_ms = e) ∧
       (editedMsOf msg.unsigned = .error .typeError →
          getPostContent stateRes msgRes = .error .typeError))) := by
  refine ⟨rfl, ?_, ?_, ?_, ?_⟩
  · intro u h
    simp [editedMsOf, h]
  · intro u rels rep h1 h2
    simp [editedMsOf, h1, h2]
  · intro u rels h1 h2
    simp [editedMsOf, h1, h2]
  · intro evs pc msg hst hpc hmsg
    constructor
    · intro e he
      refine ⟨{ text := msg.content.body, html := msg.content.formatted_body,
                created_ms := msg.origin_server_ts,
                published_ms := (match findEvent evs "m.room.canonical_alias" with
                  | some ae =>
                    if truthy ae.content.aliasVal then some ae.origin_server_ts
                    else none
                  | none => none),
                edited_ms := e }, ?_, rfl⟩
      simp [getPostContent, ofMatrix, hst, hpc, hmsg, he]
    · intro he
      simp [getPostContent, ofMatrix, hst, hpc, hmsg, he]

/-- Sample message whose unsigned metadata has an m.relations object but
no m.replace entry. -/
def c10Message : MessageEvent :=
  { content := { body := "Hi", formatted_body := some "<p>Hi</p>" },
    origin_server_ts := 10,
    unsigned := some { mRelations := some { mReplace := none } } }

/-- Counterexample to C10 as stated: on a message whose m.relations object
lacks the m.replace entry, the edited-timestamp derivation throws a
TypeError, and getPostContent fails with it, rather than producing a
value. -/
theorem editedMs_crash_counterexample :
    editedMsOf c10Message.unsigned = .error .typeError
      ∧ getPostContent (.ok [samplePointer]) (fun _ => .ok c10Message)
        = .error .typeError := by
  constructor
  · rfl
  · simp [getPostContent, ofMatrix, findEvent, samplePointer, c10Message,
      editedMsOf, POST_CONTENT_EVENT]

/-- Sample replacement aggregation carrying a timestamp. -/
def c10ReplaceInfo : ReplaceRelation := { origin_server_ts := some 42 }

/-- Sample message whose m.replace entry is present. -/
def c10Replaced : MessageEvent :=
  { content := { body := "(edited) Hi", formatted_body := some "<p>Hi</p>" },
    origin_server_ts := 10,
    unsigned := some { mRelations := some { mReplace := some c10ReplaceInfo } } }

/-- Witness for the amended C10 at concrete messages covering every
shape of the unsigned metadata. -/
theorem editedMs_total_except_missing_replace_witness :
    editedMsOf (some { mRelations := none }) = .ok none
      ∧ editedMsOf c10Replaced.unsigned = .ok (some 42)
      ∧ editedMsOf c10Message.unsigned = .error .typeError
      ∧ (∃ c, getPostContent (.ok [samplePointer]) (fun _ => .ok sampleMessage)
            = .ok c ∧ c.edited_ms = none)
      ∧ getPostContent (.ok [samplePointer]) (fun _ => .ok c10Message)
        = .error .typeError := by
  refine ⟨?_, ?_, ?_, ?_, ?_⟩
  · exact (editedMs_total_except_missing_replace (.ok [])
      (fun _ => .ok sampleMessage)).2.1 { mRelations := none } rfl
  · exact (editedMs_total_except_missing_replace (.ok [])
      (fun _ => .ok sampleMessage)).2.2.1
      { mRelations := some { mReplace := some c10ReplaceInfo } }
      { mReplace := some c10ReplaceInfo } c10ReplaceInfo rfl rfl
  · exact (editedMs_total_except_missing_replace (.ok [])
      (fun _ => .ok sampleMessage)).2.2.2.1
      { mRelations := some { mReplace := none } } { mReplace := none } rfl rfl
  · exact ((editedMs_total_except_missing_replace (.ok [samplePointer])
      (fun _ => .ok sampleMessage)).2.2.2.2 [samplePointer] samplePointer
      sampleMessage rfl (by decide) rfl).1 none rfl
  · exact ((editedMs_total_except_missing_replace (.ok [samplePointer])
      (fun _ => .ok c10Message)).2.2.2.2 [samplePointer] samplePointer
      c10Message rfl (by decide) rfl).2 rfl

/-- C1: addPost issues the room creation first; then the message send,
the child-link write on the blog and the parent-link write on the post
form one concurrent phase; the content-pointer write on the post forms
the final phase, with the event id of its payload exactly the identifier
returned by the message send; the returned PostMetadata echoes the input
title, summary and slug and the newly created room id. -/
theorem addPost_ordering (pfx : String) (env : AddPostEnv) (blogId : String)
    (post : NewPost) (postId messageEventId childId parentId pointerId : String)
    (h1 : env.createRoomRes = .ok postId)
    (h2 : env.sendMessageRes = .ok messageEventId)
    (h3 : env.childRes = .ok childId)
    (h4 : env.parentRes = .ok parentId)
    (h5 : env.pointerRes = .ok pointerId) :
    addPost pfx env blogId post =
      (.ok { id := postId, title := some post.title, summary := post.summary,
             slug := post.slug },
       [[Call.createRoom (addPostCreateReq pfx post)],
        [Call.sendMessageEvent postId "m.room.message" (newPostMessagePayload post),
         Call.sendStateEvent blogId CHILD_EVENT postId (.childLink [env.serverName]),
         Call.sendStateEvent postId PARENT_EVENT blogId
           (.parentLink [env.serverName] true)],
        [Call.sendStateEvent postId POST_CONTENT_EVENT ""
           (.contentPointer messageEventId)]]) := by
  simp [addPost, ofMatrix, h1, h2, h3, h4, h5]

/-- Sample oracle environment for addPost in which every call succeeds. -/
def c1Env : AddPostEnv :=
  { serverName := "example.org",
    createRoomRes := .ok "!post:s",
    sendMessageRes := .ok "$msg",
    childRes := .ok "$child",
    parentRes := .ok "$parent",
    pointerRes := .ok "$ptr" }

/-- Sample new post input. -/
def c1NewPost : NewPost :=
  { title := "Hello", summary := some "First post", slug := some "hello",
    text := "Hi", html := "<p>Hi</p>" }

/-- Witness for C1 at a concrete environment and input. -/
theorem addPost_ordering_witness :
    addPost "blog." c1Env "!b:s" c1NewPost =
      (.ok { id := "!post:s", title := some "Hello", summary := some "First post",
             slug := some "hello" },
       [[Call.createRoom (addPostCreateReq "blog." c1NewPost)],
        [Call.sendMessageEvent "!post:s" "m.room.message"
           (newPostMessagePayload c1NewPost),
         Call.sendStateEvent "!b:s" CHILD_EVENT "!post:s" (.childLink ["example.org"]),
         Call.sendStateEvent "!post:s" PARENT_EVENT "!b:s"
           (.parentLink ["example.org"] true)],
        [Call.sendStateEvent "!post:s" POST_CONTENT_EVENT ""
           (.contentPointer "$msg")]]) := by
  exact addPost_ordering "blog." c1Env "!b:s" c1NewPost "!post:s" "$msg" "$child"
    "$parent" "$ptr" rfl rfl rfl rfl rfl

/-- C6: on a post room whose state carries no parent-link record,
deletePost fails with the no-parent-linkage BlogServiceError after issuing
only the single state read: no redaction, alias removal, kick or leave
call appears in the trace. -/
theorem deletePost_no_parent (w : DeletePostWorld) (postId reason : String) :
    ∀ evs, w.postStateRes = .ok evs → findEvent evs PARENT_EVENT = none →
      deletePost w postId reason
          = (.error (.blogServiceError "No parent linkage"),
             [Call.getStateEvents postId])
        ∧ ∀ c ∈ (deletePost w postId reason).2, c.isRead = true := by
  intro evs h hnone
  have hd : deletePost w postId reason
      = (.error (.blogServiceError "No parent linkage"),
         [Call.getStateEvents postId]) := by
    simp [deletePost, ofMatrix, h, hnone]
  refine ⟨hd, ?_⟩
  rw [hd]
  intro c hc
  simp at hc
  rw [hc]
  rfl

/-- Sample deletePost world whose post state lacks a parent-link record
and whose remaining oracle calls all succeed. -/
def c6World : DeletePostWorld :=
  { postStateRes := .ok [samplePointer],
    currentUserRes := .ok "@me:s",
    blogStateRes := .ok [],
    redactParentRes := .ok "$r1",
    redactChildRes := .ok "$r2",
    removeAliasRes := .ok (),
    kickRes := fun _ => .ok (),
    leaveRes := .ok () }

/-- Witness for C6 at the concrete unlinked post room. -/
theorem deletePost_no_parent_witness :
    deletePost c6World "!p:s" "Deleting blog post"
        = (.error (.blogServiceError "No parent linkage"),
           [Call.getStateEvents "!p:s"])
      ∧ ∀ c ∈ (deletePost c6World "!p:s" "Deleting blog post").2, c.isRead = true :=
  deletePost_no_parent c6World "!p:s" "Deleting blog post" [samplePointer] rfl
    (by decide)

theorem setPostSlug_empty_trace (pfx server : String) (w : SlugWorld)
    (postId : String) (c : EventContent) (a : String)
    (hr : w.aliasReadRes = .ok c) (ha : c.aliasVal = some a) (hne : a ≠ "") :
    (setPostSlug pfx server w postId "").2
      = [Call.getStateEvent postId "m.room.canonical_alias",
         Call.removeRoomAlias a] := by
  rcases hrem : w.removeAliasRes with ⟨s, d⟩ | u
  · simp [setPostSlug, hr, ha, hne, hrem, toUnitRes]
  · simp [setPostSlug, hr, ha, hne, hrem, toUnitRes]

/-- C7: the slug update of editPost removes only the old alias when given the
empty slug while an alias exists; binds the computed alias and then
writes the canonical-alias record when a non-empty slug is given and no
alias existed; issues no alias operation at all when the computed alias
equals the existing one; and on a genuine change binds the new alias and
writes the canonical record strictly before unbinding the old alias. -/
theorem setPostSlug_spec (pfx server : String) (w : SlugWorld)
    (postId slug : String) :
    (∀ c a, slug = "" → w.aliasReadRes = .ok c → c.aliasVal = some a → a ≠ "" →
      (setPostSlug pfx server w postId slug).2
          = [Call.getStateEvent postId "m.room.canonical_alias",
             Call.removeRoomAlias a]
        ∧ ∀ x r, Call.addRoomAlias x r ∉ (setPostSlug pfx server w postId slug).2) ∧
    (∀ c, slug ≠ "" → w.aliasReadRes = .ok c → c.aliasVal = none →
      w.addAliasRes = .ok () →
      (setPostSlug pfx server w postId slug).2
          = [Call.getStateEvent postId "m.room.canonical_alias",
             Call.addRoomAlias (createRoomAlias pfx server slug) postId,
             Call.sendStateEvent postId "m.room.canonical_alias" ""
               (.aliasRecord (createRoomAlias pfx server slug))]
        ∧ ∀ x, Call.removeRoomAlias x ∉ (setPostSlug pfx server w postId slug).2) ∧
    (∀ c, w.aliasReadRes = .ok c →
      c.aliasVal = some (if slug == "" then "" else createRoomAlias pfx server slug) →
      setPostSlug pfx server w postId slug
        = (.ok (), [Call.getStateEvent postId "m.room.canonical_alias"])) ∧
    (∀ c a sid, slug ≠ "" → w.aliasReadRes = .ok c → c.aliasVal = some a →
      a ≠ "" → a ≠ createRoomAlias pfx server slug →
      w.addAliasRes = .ok () → w.sendAliasStateRes = .ok sid →
      (setPostSlug pfx server w postId slug).2
        = [Call.getStateEvent postId "m.room.canonical_alias",
           Call.addRoomAlias (createRoomAlias pfx server slug) postId,
           Call.sendStateEvent postId "m.room.canonical_alias" ""
             (.aliasRecord (createRoomAlias pfx server slug)),
           Call.removeRoomAlias a]) := by
  refine ⟨?_, ?_, ?_, ?_⟩
  · intro c a hs hr ha hne
    subst hs
    have htr := setPostSlug_empty_trace pfx server w postId c a hr ha hne
    refine ⟨htr, ?_⟩
    rw [htr]
    intro x r
    simp
  · intro c hs hr ha hadd
    have htr : (setPostSlug pfx server w postId slug).2
        = [Call.getStateEvent postId "m.room.canonical_alias",
           Call.addRoomAlias (createRoomAlias pfx server slug) postId,
           Call.sendStateEvent postId "m.room.canonical_alias" ""
             (.aliasRecord (createRoomAlias pfx server slug))] := by
      rcases hsend : w.sendAliasStateRes with ⟨s, d⟩ | sid
      · simp [setPostSlug, hs, hr, ha, hadd, hsend, toUnitRes,
          createRoomAlias_ne_empty pfx server slug]
      · simp [setPostSlug, hs, hr, ha, hadd, hsend, toUnitRes,
          createRoomAlias_ne_empty pfx server slug]
    refine ⟨htr, ?_⟩
    rw [htr]
    intro x
    simp
  · intro c hr ha
    simp [setPostSlug, hr, ha]
  · intro c a sid hs hr ha hane hadne hadd hsend
    rcases hrem : w.removeAliasRes with ⟨s, d⟩ | u
    · simp [setPostSlug, hs, hr, ha, hane, hadne, hadd, hsend, hrem, toUnitRes,
        createRoomAlias_ne_empty pfx server slug]
    · simp [setPostSlug, hs, hr, ha, hane, hadne, hadd, hsend, hrem, toUnitRes,
        createRoomAlias_ne_empty pfx server slug]

/-- A slug world whose post currently carries an alias. -/
def c7WorldOld : SlugWorld :=
  { aliasReadRes := .ok { aliasVal := some "#blog.old:s" },
    addAliasRes := .ok (),
    sendAliasStateRes := .ok "$a",
    removeAliasRes := .ok () }

/-- A slug world whose post carries no alias. -/
def c7WorldNone : SlugWorld :=
  { aliasReadRes := .ok {},
    addAliasRes := .ok (),
    sendAliasStateRes := .ok "$a",
    removeAliasRes := .ok () }

/-- A slug world whose post already carries the computed alias. -/
def c7WorldNoop : SlugWorld :=
  { aliasReadRes := .ok { aliasVal := some "#blog.x:s" },
    addAliasRes := .ok (),
    sendAliasStateRes := .ok "$a",
    removeAliasRes := .ok () }

/-- Witness for C7 at concrete worlds covering removal, fresh bind, no-op
and swap. -/
theorem setPostSlug_spec_witness :
    ((setPostSlug "blog." "s" c7WorldOld "!p:s" "").2
        = [Call.getStateEvent "!p:s" "m.room.canonical_alias",
           Call.removeRoomAlias "#blog.old:s"])
      ∧ ((setPostSlug "blog." "s" c7WorldNone "!p:s" "x").2
        = [Call.getStateEvent "!p:s" "m.room.canonical_alias",
           Call.addRoomAlias "#blog.x:s" "!p:s",
           Call.sendStateEvent "!p:s" "m.room.canonical_alias" ""
             (.aliasRecord "#blog.x:s")])
      ∧ (setPostSlug "blog." "s" c7WorldNoop "!p:s" "x"
        = (.ok (), [Call.getStateEvent "!p:s" "m.room.canonical_alias"]))
      ∧ ((setPostSlug "blog." "s" c7WorldOld "!p:s" "x").2
        = [Call.getStateEvent "!p:s" "m.room.canonical_alias",
           Call.addRoomAlias "#blog.x:s" "!p:s",
           Call.sendStateEvent "!p:s" "m.room.canonical_alias" ""
             (.aliasRecord "#blog.x:s"),
           Call.removeRoomAlias "#blog.old:s"]) := by
  have hx : createRoomAlias "blog." "s" "x" = "#blog.x:s" := by decide
  refine ⟨?_, ?_, ?_, ?_⟩
  · exact ((setPostSlug_spec "blog." "s" c7WorldOld "!p:s" "").1
      { aliasVal := some "#blog.old:s" } "#blog.old:s" rfl rfl rfl (by decide)).1
  · have h := ((setPostSlug_spec "blog." "s" c7WorldNone "!p:s" "x").2.1
      {} (by decide) rfl rfl rfl).1
    rw [hx] at h
    exact h
  · exact (setPostSlug_spec "blog." "s" c7WorldNoop "!p:s" "x").2.2.1
      { aliasVal := some "#blog.x:s" } rfl (by decide)
  · have h := (setPostSlug_spec "blog." "s" c7WorldOld "!p:s" "x").2.2.2
      { aliasVal := some "#blog.old:s" } "#blog.old:s" "$a" (by decide) rfl rfl
      (by decide) (by decide) rfl rfl
    rw [hx] at h
    exact h

/-- Message-send calls of a trace. -/
def Call.isSendMessage : Call → Bool
  | .sendMessageEvent _ _ _ => true
  | _ => false

/-- C8: the content update of editPost reads the content-pointer record, sends
exactly one new message whose plain body is the new text prefixed with
the edited marker, carrying an m.replace relation pointing at the stored
original event id and an m.new_content payload holding the clean text and
HTML, and it never writes any state record, so the pointer record is
unchanged by every edit. -/
theorem setPostContent_spec (pointerRes : MatrixResult EventContent)
    (sendRes : MatrixResult String) (postId text html : String) :
    ∀ pc orig, pointerRes = .ok pc → pc.event_id = some orig →
      ((setPostContent pointerRes sendRes postId text html).2
          = [Call.getStateEvent postId POST_CONTENT_EVENT,
             Call.sendMessageEvent postId "m.room.message"
               (editedMessagePayload text html (some orig))]
        ∧ ((setPostContent pointerRes sendRes postId text html).2.countP
             Call.isSendMessage) = 1
        ∧ (∀ r t k p, Call.sendStateEvent r t k p
             ∉ (setPostContent pointerRes sendRes postId text html).2)
        ∧ (∀ st : ServerState,
             (applyTrace postId st
               (setPostContent pointerRes sendRes postId text html).2).roomState
               = st.roomState)
        ∧ (editedMessagePayload text html (some orig)).body = "(edited) " ++ text
        ∧ (editedMessagePayload text html (some orig)).relatesTo
            = some { rel_type := "m.replace", event_id := some orig }
        ∧ (editedMessagePayload text html (some orig)).newContent
            = some { msgtype := "m.text", format := "org.matrix.custom.html",
                     body := text, formatted_body := html }) := by
  intro pc orig h1 h2
  have htr : (setPostContent pointerRes sendRes postId text html).2
      = [Call.getStateEvent postId POST_CONTENT_EVENT,
         Call.sendMessageEvent postId "m.room.message"
           (editedMessagePayload text html (some orig))] := by
    rcases hsend : sendRes with ⟨s, d⟩ | eid
    · simp [setPostContent, ofMatrix, h1, h2, hsend]
    · simp [setPostContent, ofMatrix, h1, h2, hsend]
  refine ⟨htr, ?_, ?_, ?_, rfl, rfl, rfl⟩
  · rw [htr]
    rfl
  · rw [htr]
    intro r t k p
    simp
  · intro st
    rw [htr]
    simp [applyTrace, applyCall]

/-- Witness for C8 at a concrete pointer record and message input. -/
theorem setPostContent_spec_witness :
    (setPostContent (.ok { event_id := some "$m1" }) (.ok "$m2") "!p:s" "New"
        "<p>New</p>").2
      = [Call.getStateEvent "!p:s" POST_CONTENT_EVENT,
         Call.sendMessageEvent "!p:s" "m.room.message"
           (editedMessagePayload "New" "<p>New</p>" (some "$m1"))]
      ∧ (editedMessagePayload "New" "<p>New</p>" (some "$m1")).body = "(edited) New"
      ∧ (applyTrace "!p:s" { roomState := [samplePointer], dirAliases := [] }
          (setPostContent (.ok { event_id := some "$m1" }) (.ok "$m2") "!p:s" "New"
            "<p>New</p>").2).roomState = [samplePointer] := by
  have h := setPostContent_spec (.ok { event_id := some "$m1" }) (.ok "$m2") "!p:s"
    "New" "<p>New</p>" { event_id := some "$m1" } "$m1" rfl rfl
  refine ⟨h.1, ?_, h.2.2.2.1 { roomState := [samplePointer], dirAliases := [] }⟩
  rw [h.2.2.2.2.1]
  decide

/-- C9: removing the slug of a post through editPost with the empty slug issues
no state-record write, so the canonical-alias record of the post room is
left unchanged (still naming the removed alias), and a subsequent
getPostSlug read against the resulting room state still reports the old
slug rather than no slug. -/
theorem setPostSlug_empty_keeps_record (pfx server postId : String)
    (st : ServerState) (ae : PersistedStateEvent) (a s : String)
    (hfind : findEvent st.roomState "m.room.canonical_alias" = some ae)
    (ha : ae.content.aliasVal = some a) (hane : a ≠ "")
    (hslug : getSlugFromRoomAlias pfx a = some s) :
    ∀ w : SlugWorld,
      w.aliasReadRes = readStateContent st "m.room.canonical_alias" →
      ((∀ r t k p, Call.sendStateEvent r t k p
          ∉ (setPostSlug pfx server w postId "").2)
       ∧ (applyTrace postId st (setPostSlug pfx server w postId "").2).roomState
           = st.roomState
       ∧ getPostSlug pfx (readStateContent
           (applyTrace postId st (setPostSlug pfx server w postId "").2)
           "m.room.canonical_alias") = .ok (some s)) := by
  intro w hw
  have hr : w.aliasReadRes = .ok ae.content := by
    rw [hw, readStateContent, hfind]
  have htr := setPostSlug_empty_trace pfx server w postId ae.content a hr ha hane
  have hroom : (applyTrace postId st (setPostSlug pfx server w postId "").2).roomState
      = st.roomState := by
    rw [htr]
    simp [applyTrace, applyCall]
  refine ⟨?_, hroom, ?_⟩
  · rw [htr]
    intro r t k p
    simp
  · rw [readStateContent, findEvent] at hw ⊢
    rw [hroom]
    rw [← findEvent, hfind, getPostSlug, ha]
    simp [hane, hslug]

/-- Sample canonical-alias record naming the alias that strips to hello. -/
def c9AliasEvent : PersistedStateEvent :=
  { type := "m.room.canonical_alias", state_key := "",
    content := { aliasVal := some "#blog.hello:s" },
    event_id := "$al", origin_server_ts := 7 }

/-- Sample server state of a post room carrying that alias. -/
def c9State : ServerState :=
  { roomState := [c9AliasEvent], dirAliases := ["#blog.hello:s"] }

/-- Sample slug world reading from that server state. -/
def c9World : SlugWorld :=
  { aliasReadRes := readStateContent c9State "m.room.canonical_alias",
    addAliasRes := .ok (),
    sendAliasStateRes := .ok "$x",
    removeAliasRes := .ok () }

/-- Witness for C9 at the concrete aliased post room. -/
theorem setPostSlug_empty_keeps_record_witness :
    (∀ r t k p, Call.sendStateEvent r t k p
        ∉ (setPostSlug "blog." "s" c9World "!p:s" "").2)
      ∧ (applyTrace "!p:s" c9State
          (setPostSlug "blog." "s" c9World "!p:s" "").2).roomState
          = c9State.roomState
      ∧ getPostSlug "blog." (readStateContent
          (applyTrace "!p:s" c9State (setPostSlug "blog." "s" c9World "!p:s" "").2)
          "m.room.canonical_alias") = .ok (some "hello") :=
  setPostSlug_empty_keeps_record "blog." "s" "!p:s" c9State c9AliasEvent
    "#blog.hello:s" "hello" (by decide) rfl (by decide) (by decide) c9World rfl

end MatrixBlog
